import Mathlib

/-!
Shallow embedding of the vielegalrag-demo frontend (React chat UI for a
legal-document RAG assistant).  Each definition translates one function or
state handler of the TypeScript source:

* `src/frontend/src/lib/api.ts` — `chat`, `search`, `uploadDocument`
  request shaping and error handling;
* `ChatArea` (src/unnamed/part_000) — `handleSend`, `handleRetry`;
* `SettingsPanel` (src/unnamed/part_001) — `switchProvider` and the
  provider-button click handler;
* `UploadModal` (src/unnamed/part_003) — `isValidFile`, `handleDrop`,
  `handleUpload`, `handleReset`;
* `ChatHistory` (src/frontend/src/components/ChatHistory.tsx) —
  `handleDelete`.

React `useState` cells are gathered into explicit state structures, and a
handler becomes a function from the old state (plus the outcome of any
awaited request) to the new state.  JavaScript truthiness tests on strings
become emptiness tests; `??` becomes `Option.getD`; a thrown `Error`
becomes `Except.error` carrying its message.
-/

namespace VieLegalRag

/-! ## Data model mirrored from `api.ts` -/

/-- Role of a chat message (`'user' | 'assistant'`). -/
inductive Role where
  | user
  | assistant
deriving DecidableEq, Repr

/-- `Citation` interface from `api.ts`/`MessageBubble`. -/
structure Citation where
  dieu : String
  khoan : Option String := none
  so_hieu : Option String := none
  text : String
  content : Option String := none
  score : Rat
  rank : Option Nat := none
deriving DecidableEq, Repr

/-- `QualityMetrics` interface from `api.ts`. -/
structure QualityMetrics where
  grade : String
  bertscore_f1 : Rat
  hallucination_score : Option Rat := none
  factuality_score : Option Rat := none
  context_relevance : Option Rat := none
  feedback : Option String := none
deriving DecidableEq, Repr

/-- `ChatResponse` interface from `api.ts`. -/
structure ChatResponse where
  answer : String
  sources : List Citation
  metrics : Option QualityMetrics := none
  message_id : Option Nat := none
deriving DecidableEq, Repr

/-- The `Message` interface local to `ChatArea`. -/
structure Message where
  role : Role
  content : String
  citations : Option (List Citation) := none
  grade : Option String := none
  metrics : Option QualityMetrics := none
  timestamp : Option String := none
deriving DecidableEq, Repr

/-! ## `ChatArea` state and handlers (src/unnamed/part_000) -/

/-- JavaScript `String.prototype.trim()`: strip whitespace from both ends
of the string.  Modelled executably over the character list. -/
def jsTrim (s : String) : String :=
  String.mk (((s.data.dropWhile Char.isWhitespace).reverse.dropWhile
    Char.isWhitespace).reverse)

/-- The `useState` cells of `ChatArea` that `handleSend`/`handleRetry`
read and write: `messages`, `input`, `isLoading`, `error`. -/
structure ChatAreaState where
  messages : List Message
  input : String
  isLoading : Bool
  error : Option String
deriving DecidableEq, Repr

/-- The user `Message` built at the top of `handleSend`
(role `'user'`, content `input`, a wall-clock timestamp). -/
def mkUserMessage (input ts : String) : Message :=
  { role := Role.user, content := input, timestamp := some ts }

/-- The assistant `Message` built from a successful `ChatResponse` in
`handleSend`. -/
def mkAiMessage (resp : ChatResponse) (ts : String) : Message :=
  { role := Role.assistant
    content := resp.answer
    citations := some resp.sources
    grade := (resp.metrics.map QualityMetrics.grade)
    metrics := resp.metrics
    timestamp := some ts }

/-- `handleSend` of `ChatArea`.  `outcome` is the result of the awaited
`chat(...)` call (`Except.error` = the call threw, carrying the error
message the catch block reads).  Returns the new state together with the
message string passed to `chat`, or `none` when the guard
`if (!input.trim() || isLoading) return` fires and no request is issued.
The catch block sets the error and rolls the optimistic user message back
with `prev.slice(0, -1)` (= `List.dropLast`); `finally` clears
`isLoading`. -/
def handleSend (s : ChatAreaState) (ts : String)
    (outcome : Except String ChatResponse) : ChatAreaState × Option String :=
  if jsTrim s.input = "" ∨ s.isLoading = true then (s, none)
  else
    let userMessage := mkUserMessage s.input ts
    let s1 : ChatAreaState :=
      { s with messages := s.messages ++ [userMessage]
               input := ""
               isLoading := true
               error := none }
    match outcome with
    | Except.ok resp =>
        let aiMessage := mkAiMessage resp ts
        ({ s1 with messages := s1.messages ++ [aiMessage], isLoading := false },
          some s.input)
    | Except.error e =>
        ({ s1 with error := some e
                   messages := s1.messages.dropLast
                   isLoading := false },
          some s.input)

/-- `handleRetry` of `ChatArea`: when the message list is non-empty, find
the last message with role `'user'` (`[...messages].reverse().find`) and,
if found, put its content back into the input and clear the error. -/
def handleRetry (s : ChatAreaState) : ChatAreaState :=
  if s.messages.length > 0 then
    match s.messages.reverse.find? (fun m => decide (m.role = Role.user)) with
    | some lastUserMsg => { s with input := lastUserMsg.content, error := none }
    | none => s
  else s

/-- The initial assistant greeting `ChatArea` starts with when no
`initialMessages` are supplied. -/
def initialGreeting : Message :=
  { role := Role.assistant
    content := "Xin chào! Tôi là trợ lý pháp luật AI. Tôi có thể giúp bạn tra cứu các điều luật trong Bộ luật Hình sự Việt Nam. Hãy đặt câu hỏi pháp lý cho tôi!" }

/-! ## `UploadModal` state and handlers (src/unnamed/part_003) -/

/-- A browser `File` as the upload modal reads it: declared MIME `type`,
`size` in bytes, and file `name`. -/
structure JsFile where
  type : String
  size : Nat
  name : String
deriving DecidableEq, Repr

/-- `type UploadStatus = 'idle' | 'uploading' | 'success' | 'error'`. -/
inductive UploadStatus where
  | idle
  | uploading
  | success
  | error
deriving DecidableEq, Repr

/-- The `useState` cells of `UploadModal`. -/
structure UploadModalState where
  isDragOver : Bool
  file : Option JsFile
  progress : Nat
  status : UploadStatus
  error : Option String
deriving DecidableEq, Repr

/-- `UploadResponse` interface from `api.ts`. -/
structure UploadResponse where
  doc_id : String
  file_name : String
  chunks : Nat
  message : String
deriving DecidableEq, Repr

/-- `validTypes` inside `isValidFile`. -/
def validTypes : List String :=
  ["application/pdf", "text/plain",
   "application/vnd.openxmlformats-officedocument.wordprocessingml.document"]

/-- `maxSize = 10 * 1024 * 1024` (10MB) inside `isValidFile`. -/
def maxSize : Nat := 10 * 1024 * 1024

/-- `isValidFile` of `UploadModal`:
`validTypes.includes(file.type) && file.size <= maxSize`. -/
def isValidFile (file : JsFile) : Bool :=
  validTypes.contains file.type && decide (file.size ≤ maxSize)

/-- The single error string both rejection branches of
`handleDrop`/`handleFileSelect` display. -/
def uploadInvalidMsg : String := "Chỉ hỗ trợ file PDF, TXT, DOCX (tối đa 10MB)"

/-- `handleDrop` of `UploadModal`: clear the drag highlight, then either
accept the dropped file (clearing the error) or set the generic error
message.  `dropped = none` models `e.dataTransfer.files[0]` being absent. -/
def handleDrop (s : UploadModalState) (dropped : Option JsFile) :
    UploadModalState :=
  let s0 := { s with isDragOver := false }
  match dropped with
  | some droppedFile =>
      if isValidFile droppedFile then
        { s0 with file := some droppedFile, error := none }
      else
        { s0 with error := some uploadInvalidMsg }
  | none => { s0 with error := some uploadInvalidMsg }

/-- `handleUpload` of `UploadModal`.  `events` is the sequence of progress
percentages delivered to the `onProgress` callback while the request is in
flight; `result` is the outcome of the awaited `uploadDocument` call.
Guard: `if (!file) return`.  On success the status becomes `'success'`
(the delayed auto-close then runs `handleReset`); on failure the status
becomes `'error'` and the thrown message is stored. -/
def handleUpload (s : UploadModalState) (events : List Nat)
    (result : Except String UploadResponse) : UploadModalState :=
  match s.file with
  | none => s
  | some _ =>
      let s1 := { s with status := UploadStatus.uploading, progress := 0,
                         error := none }
      let s2 := events.foldl (fun st prog => { st with progress := prog }) s1
      match result with
      | Except.ok _ => { s2 with status := UploadStatus.success }
      | Except.error msg =>
          { s2 with status := UploadStatus.error, error := some msg }

/-- `handleReset` of `UploadModal`: the only code path that clears the
selected file (the success auto-close invokes it after its delay). -/
def handleReset (s : UploadModalState) : UploadModalState :=
  { s with file := none, progress := 0, status := UploadStatus.idle,
           error := none }

/-! ## `api.ts` request shaping and error handling -/

/-- `search_mode` values accepted by the backend. -/
inductive SearchMode where
  | legal
  | user
  | hybrid
deriving DecidableEq, Repr

/-- JSON body `chat` sends to `POST /api/chat`. -/
structure ChatRequestBody where
  message : String
  user_id : String
  session_id : String
  search_mode : SearchMode
  reranker_enabled : Bool
deriving DecidableEq, Repr

/-- Body construction inside `chat` in `api.ts`:
`search_mode: options.searchMode ?? 'hybrid'`,
`reranker_enabled: options.rerankerEnabled ?? true`
(`??` = `Option.getD`). -/
def chatRequestBody (message userId sessionId : String)
    (optionsSearchMode : Option SearchMode)
    (optionsRerankerEnabled : Option Bool) : ChatRequestBody :=
  { message := message
    user_id := userId
    session_id := sessionId
    search_mode := optionsSearchMode.getD SearchMode.hybrid
    reranker_enabled := optionsRerankerEnabled.getD true }

/-- JSON body `search` sends to `POST /api/search`. -/
structure SearchRequestBody where
  query : String
  user_id : String
  search_mode : SearchMode
  top_k : Nat
deriving DecidableEq, Repr

/-- Body construction inside `search` in `api.ts`:
`search_mode: options.searchMode ?? 'hybrid'`, `top_k: options.topK ?? 5`. -/
def searchRequestBody (query userId : String)
    (optionsSearchMode : Option SearchMode)
    (optionsTopK : Option Nat) : SearchRequestBody :=
  { query := query
    user_id := userId
    search_mode := optionsSearchMode.getD SearchMode.hybrid
    top_k := optionsTopK.getD 5 }

/-- The generic failure message the `chat` client builds from the HTTP
status when no usable `detail` is available. -/
def chatFailedMsg (status : Nat) : String := "Chat failed: " ++ toString status

/-- `await response.json().catch(() => ({}))` followed by `.detail`: a
failed JSON parse (`parsed = none`) behaves like an empty object, whose
`detail` field is absent. -/
def chatErrorDetail (parsed : Option (Option String)) : Option String :=
  parsed.getD none

/-- The non-2xx branch of `chat` in `api.ts`:
`throw new Error(error.detail || \x7bChat failed: status\x7d)`.
`ok` is `response.ok`; `parsed` is the body-parse outcome (outer `none` =
JSON parse threw, inner option = presence of the string `detail` field).
JavaScript `||` falls through on the empty string, so an empty `detail`
also yields the generic message.  On `ok` the parsed body is returned. -/
def clientChat (ok : Bool) (status : Nat) (parsed : Option (Option String))
    (body : ChatResponse) : Except String ChatResponse :=
  if ok then Except.ok body
  else
    match chatErrorDetail parsed with
    | some d =>
        if d = "" then Except.error (chatFailedMsg status)
        else Except.error d
    | none => Except.error (chatFailedMsg status)

/-- The progress percentage computed in `uploadDocument`'s `progress`
listener, `Math.round((e.loaded / e.total) * 100)`, embedded exactly over
the rationals: `round x = ⌊x + 1/2⌋`, and
`⌊100·l/t + 1/2⌋ = (200·l + t) / (2·t)` in natural division. -/
def uploadProgress (loaded total : Nat) : Nat :=
  (200 * loaded + total) / (2 * total)

/-- The sequence of percentages `uploadDocument` reports to `onProgress`
for a sequence of progress events with the given `loaded` values and a
fixed computable `total`. -/
def progressReports (loads : List Nat) (total : Nat) : List Nat :=
  loads.map (fun loaded => uploadProgress loaded total)

/-! ## `SettingsPanel` state and handlers (src/unnamed/part_001) -/

/-- `LLMProvider` interface of `SettingsPanel`. -/
structure ProviderInfo where
  id : String
  name : String
  models : List String
  default_model : String
  has_api_key : Bool
  cost_per_1m_input : Rat
  cost_per_1m_output : Rat
deriving DecidableEq, Repr

/-- The JSON body of a `POST /api/llm/set-provider` response. -/
structure SwitchResponse where
  status : String
  model : String
deriving DecidableEq, Repr

/-- `testResult` cell contents. -/
structure ProviderTestResult where
  success : Bool
  message : String
deriving DecidableEq, Repr

/-- The `useState` cells of `SettingsPanel` touched by `switchProvider`
and the provider buttons. -/
structure SettingsState where
  activeProvider : String
  activeModel : String
  loading : Bool
  apiKeyInput : String
  showKeyInput : Option String
  testResult : Option ProviderTestResult
deriving DecidableEq, Repr

/-- `switchProvider` of `SettingsPanel`.  `resp = none` models the fetch
(or JSON parse) throwing; otherwise `resp` carries the parsed response.
Only the `data.status === 'success'` branch touches
`activeProvider`/`activeModel`; `finally` clears `loading`. -/
def switchProvider (s : SettingsState) (providerId : String)
    (resp : Option SwitchResponse) : SettingsState :=
  let s1 := { s with loading := true, testResult := none }
  let s2 :=
    match resp with
    | some data =>
        if data.status = "success" then
          { s1 with activeProvider := providerId
                    activeModel := data.model
                    apiKeyInput := ""
                    showKeyInput := none }
        else s1
    | none => s1
  { s2 with loading := false }

/-- `needsKey` computed per provider button:
`provider.id !== 'local_ollama' && !provider.has_api_key`. -/
def needsKey (p : ProviderInfo) : Bool :=
  (p.id != "local_ollama") && !p.has_api_key

/-- The provider button's `onClick`: a keyless non-local provider opens
the API-key prompt instead of issuing the switch request; otherwise
`switchProvider` runs.  The boolean records whether a switch request was
issued. -/
def providerButtonClick (s : SettingsState) (p : ProviderInfo)
    (resp : Option SwitchResponse) : SettingsState × Bool :=
  if needsKey p then ({ s with showKeyInput := some p.id }, false)
  else (switchProvider s p.id resp, true)

/-! ## `ChatHistory` state and handlers
(src/frontend/src/components/ChatHistory.tsx) -/

/-- `ChatSession` interface of `ChatHistory`. -/
structure ChatSession where
  session_id : String
  title : String
  created_at : String
  updated_at : String
deriving DecidableEq, Repr

/-- The `useState` cells of `ChatHistory` touched by `handleDelete`. -/
structure ChatHistoryState where
  sessions : List ChatSession
  loading : Bool
  error : Option String
  deleteConfirm : Option String
deriving DecidableEq, Repr

/-- `handleDelete` of `ChatHistory`.  A first click on a session arms the
confirmation and issues no request.  A confirmed click issues
`DELETE /api/chat/sessions/:id`; `respOk` is `response.ok`.  On a non-ok
response (`throw` → `catch`) the error string is set; on ok the session is
filtered out of the list and the confirmation cleared. -/
def handleDelete (s : ChatHistoryState) (sessionId : String)
    (respOk : Bool) : ChatHistoryState :=
  if s.deleteConfirm ≠ some sessionId then
    { s with deleteConfirm := some sessionId }
  else if respOk then
    { s with sessions := s.sessions.filter (fun x => x.session_id != sessionId)
             deleteConfirm := none }
  else
    { s with error := some "Failed to delete session" }

end VieLegalRag

namespace VieLegalRag

/-- **C1.** A failed chat turn leaves the displayed message list exactly as
it was before the turn began: the guard branch changes nothing, and the
failure branch drops the one optimistically appended user message and
appends no assistant message. -/
theorem handleSend_failure_rollback (s : ChatAreaState) (ts e : String) :
    ((handleSend s ts (Except.error e)).1).messages = s.messages := by
  unfold handleSend
  split
  · rfl
  · simp [mkUserMessage]

/-- **C9.** The send handler never issues a chat request when the input
trims to the empty string or a request is already in flight (it returns
with the state untouched and no message sent); and whenever it does issue
a request, the sent message is non-empty after trimming, so the gateway's
non-empty-message precondition holds at every call site. -/
theorem handleSend_no_empty_send (s : ChatAreaState) (ts : String)
    (o : Except String ChatResponse) :
    (jsTrim s.input = "" ∨ s.isLoading = true →
      handleSend s ts o = (s, none)) ∧
    (∀ m, (handleSend s ts o).2 = some m → jsTrim m ≠ "") := by
  constructor
  · intro h
    unfold handleSend
    rw [if_pos h]
  · intro m hm
    unfold handleSend at hm
    by_cases h : jsTrim s.input = "" ∨ s.isLoading = true
    · rw [if_pos h] at hm
      exact absurd hm (by simp)
    · rw [if_neg h] at hm
      push_neg at h
      have hms : m = s.input := by
        cases o <;> simp at hm <;> exact hm.symm
      rw [hms]
      exact h.1

/-- Witness for C9 at a concrete state: with input `"  "` (trims empty)
the handler issues no request and changes nothing. -/
theorem handleSend_no_empty_send_witness :
    handleSend ⟨[initialGreeting], "  ", false, none⟩ "10:00"
        (Except.error "boom") = (⟨[initialGreeting], "  ", false, none⟩, none) :=
  (handleSend_no_empty_send ⟨[initialGreeting], "  ", false, none⟩ "10:00"
    (Except.error "boom")).1 (Or.inl (by decide))

/-- **C4 (code bug).** Concrete run refuting the retry-prefill claim: the
conversation holds only the initial assistant greeting, the user sends
`"hello"`, the chat request rejects.  `handleSend` rolls the optimistic
user message back, so `handleRetry` finds no user message in the remaining
list and leaves the input empty — it does not pre-fill `"hello"`, the
content of the failed turn's user message. -/
theorem handleRetry_after_rollback_loses_input :
    (handleRetry
        ((handleSend ⟨[initialGreeting], "hello", false, none⟩ "10:00"
          (Except.error "boom")).1)).input = "" ∧
    ("" : String) ≠ "hello" := by
  constructor
  · rfl
  · decide

/-- **C2 (counterexample).** The rejection reason does not distinguish an
unsupported type from an oversized file: an 11MB PDF and a small PNG are
both invalid, and `handleDrop` stores the identical generic error string
for both. -/
theorem handleDrop_single_reason :
    isValidFile ⟨"application/pdf", 11 * 1024 * 1024, "big.pdf"⟩ = false ∧
    isValidFile ⟨"image/png", 100, "img.png"⟩ = false ∧
    (handleDrop ⟨false, none, 0, UploadStatus.idle, none⟩
        (some ⟨"application/pdf", 11 * 1024 * 1024, "big.pdf"⟩)).error =
      (handleDrop ⟨false, none, 0, UploadStatus.idle, none⟩
        (some ⟨"image/png", 100, "img.png"⟩)).error ∧
    (handleDrop ⟨false, none, 0, UploadStatus.idle, none⟩
        (some ⟨"application/pdf", 11 * 1024 * 1024, "big.pdf"⟩)).error =
      some uploadInvalidMsg := by
  refine ⟨by decide, by decide, ?_, ?_⟩ <;> rfl

/-- **C2 (amended).** `isValidFile` accepts exactly the files whose MIME
type is PDF, plain text, or DOCX and whose size is at most
`10 * 1024 * 1024` bytes; every invalid file (an 11MB PDF included) is
rejected by `handleDrop` with the single generic reason
`uploadInvalidMsg`, leaving the selected file unchanged (in particular, no
upload is started for it); and from a rejection state with no selected
file, `handleUpload` is a no-op. -/
theorem isValidFile_spec :
    (∀ f : JsFile, isValidFile f = true ↔
      ((f.type = "application/pdf" ∨ f.type = "text/plain" ∨
        f.type =
          "application/vnd.openxmlformats-officedocument.wordprocessingml.document") ∧
        f.size ≤ 10 * 1024 * 1024)) ∧
    (∀ (s : UploadModalState) (f : JsFile), isValidFile f = false →
      handleDrop s (some f) =
        { s with isDragOver := false, error := some uploadInvalidMsg }) ∧
    isValidFile ⟨"application/pdf", 11 * 1024 * 1024, "big.pdf"⟩ = false ∧
    (∀ (events : List Nat) (result : Except String UploadResponse),
      handleUpload ⟨false, none, 0, UploadStatus.idle, some uploadInvalidMsg⟩
          events result =
        ⟨false, none, 0, UploadStatus.idle, some uploadInvalidMsg⟩) := by
  refine ⟨?_, ?_, by decide, ?_⟩
  · intro f
    simp [isValidFile, validTypes, maxSize]
  · intro s f hf
    simp [handleDrop, hf]
  · intro events result
    rfl

/-- Witness for the amended C2 at a concrete invalid file: dropping a
small PNG onto an empty modal only sets the generic error. -/
theorem isValidFile_spec_witness :
    handleDrop ⟨false, none, 0, UploadStatus.idle, none⟩
        (some ⟨"image/png", 100, "img.png"⟩) =
      ⟨false, none, 0, UploadStatus.idle, some uploadInvalidMsg⟩ :=
  isValidFile_spec.2.1 ⟨false, none, 0, UploadStatus.idle, none⟩
    ⟨"image/png", 100, "img.png"⟩ (by decide)

/-- **C7 (counterexample).** A failing upload does not change only status
and error: `handleUpload` resets `progress` to `0` on entry, so from a
state with `progress = 50` an immediately failing retry ends with
`progress = 0`. -/
theorem handleUpload_resets_progress :
    (handleUpload
        ⟨false, some ⟨"application/pdf", 100, "a.pdf"⟩, 50,
          UploadStatus.error, none⟩
        [] (Except.error "Upload failed: Network error")).progress = 0 ∧
    (⟨false, some ⟨"application/pdf", 100, "a.pdf"⟩, 50,
        UploadStatus.error, none⟩ : UploadModalState).progress = 50 := by
  exact ⟨rfl, rfl⟩

/-- **C7 (amended).** When an upload fails, the selected file (and the
drag state) are unchanged — only status, error, and progress change — so
the user can retry without reselecting (on failure with a file selected,
the status becomes `'error'` and the thrown message is recorded); and the
file is cleared only by `handleReset`, the code path the success
auto-close invokes. -/
theorem handleUpload_failure_preserves_file :
    ∀ (s : UploadModalState) (events : List Nat) (msg : String) (f : JsFile),
      (handleUpload s events (Except.error msg)).file = s.file ∧
      (handleUpload s events (Except.error msg)).isDragOver = s.isDragOver ∧
      (s.file = some f →
        (handleUpload s events (Except.error msg)).status =
            UploadStatus.error ∧
        (handleUpload s events (Except.error msg)).error = some msg) ∧
      (∀ s2 : UploadModalState, (handleReset s2).file = none) := by
  intro s events msg f
  have hfold : ∀ (l : List Nat) (st : UploadModalState),
      ((l.foldl (fun st prog => { st with progress := prog }) st).file
          = st.file) ∧
      ((l.foldl (fun st prog => { st with progress := prog }) st).isDragOver
          = st.isDragOver) := by
    intro l
    induction l with
    | nil => intro st; exact ⟨rfl, rfl⟩
    | cons p t ih => intro st; simpa using ih { st with progress := p }
  cases hf : s.file with
  | none => simp [handleUpload, handleReset, hf]
  | some g =>
      have h := hfold events
        { isDragOver := s.isDragOver, file := some g, progress := 0,
          status := UploadStatus.uploading, error := none }
      refine ⟨?_, ?_, fun _ => ⟨?_, ?_⟩, fun s2 => rfl⟩ <;>
        simp [handleUpload, hf, h.1, h.2]

/-- Witness for the amended C7 at a concrete failing upload: the selected
PDF is still selected afterwards, the status is `'error'`, and the thrown
message is recorded. -/
theorem handleUpload_failure_preserves_file_witness :
    (handleUpload
        ⟨false, some ⟨"application/pdf", 100, "a.pdf"⟩, 0, UploadStatus.idle,
          none⟩
        [10, 60] (Except.error "Upload failed: 500")).file =
      some ⟨"application/pdf", 100, "a.pdf"⟩ ∧
    (handleUpload
        ⟨false, some ⟨"application/pdf", 100, "a.pdf"⟩, 0, UploadStatus.idle,
          none⟩
        [10, 60] (Except.error "Upload failed: 500")).status =
      UploadStatus.error ∧
    (handleUpload
        ⟨false, some ⟨"application/pdf", 100, "a.pdf"⟩, 0, UploadStatus.idle,
          none⟩
        [10, 60] (Except.error "Upload failed: 500")).error =
      some "Upload failed: 500" := by
  have h := handleUpload_failure_preserves_file
    ⟨false, some ⟨"application/pdf", 100, "a.pdf"⟩, 0, UploadStatus.idle, none⟩
    [10, 60] "Upload failed: 500" ⟨"application/pdf", 100, "a.pdf"⟩
  exact ⟨h.1, (h.2.2.1 rfl).1, (h.2.2.1 rfl).2⟩

/-- **C8.** The progress percentages `uploadDocument` reports: for every
event sequence whose `loaded` values are monotonically non-decreasing and
bounded by a positive `total`, the reported sequence
`round((loaded/total)*100)` is monotonically non-decreasing and every
reported value lies in `[0, 100]`. -/
theorem progressReports_monotone_bounded :
    ∀ (total : Nat) (loads : List Nat), 0 < total →
      (∀ l ∈ loads, l ≤ total) →
      List.Chain' (· ≤ ·) loads →
      List.Chain' (· ≤ ·) (progressReports loads total) ∧
      ∀ p ∈ progressReports loads total, p ≤ 100 := by
  intro total loads ht hbound hchain
  constructor
  · rw [progressReports, List.chain'_map]
    simp only [uploadProgress]
    exact hchain.imp fun a b hab => Nat.div_le_div_right (by omega)
  · intro p hp
    rw [progressReports, List.mem_map] at hp
    obtain ⟨l, hl, rfl⟩ := hp
    have hle : l ≤ total := hbound l hl
    have h101 : uploadProgress l total < 101 := by
      rw [uploadProgress, Nat.div_lt_iff_lt_mul (by omega)]
      omega
    omega

/-- Witness for C8 at a concrete event sequence (`total = 10`,
loaded `0, 5, 10`): the reported percentages are non-decreasing and
bounded by 100. -/
theorem progressReports_monotone_bounded_witness :
    List.Chain' (· ≤ ·) (progressReports [0, 5, 10] 10) ∧
    ∀ p ∈ progressReports [0, 5, 10] 10, p ≤ 100 :=
  progressReports_monotone_bounded 10 [0, 5, 10] (by decide)
    (by decide) (by norm_num [List.chain'_cons])

/-- **C10.** When the option objects are omitted, the `chat` request body
defaults `search_mode` to `'hybrid'` and `reranker_enabled` to `true`, and
the `search` request body defaults `search_mode` to `'hybrid'` and `top_k`
to `5`. -/
theorem requestBody_defaults :
    ∀ (m u sid q : String),
      (chatRequestBody m u sid none none).search_mode = SearchMode.hybrid ∧
      (chatRequestBody m u sid none none).reranker_enabled = true ∧
      (searchRequestBody q u none none).search_mode = SearchMode.hybrid ∧
      (searchRequestBody q u none none).top_k = 5 := by
  intro m u sid q
  exact ⟨rfl, rfl, rfl, rfl⟩

/-- **C3 (counterexample).** A `detail` field that is present and
parseable but empty is not surfaced: JavaScript `||` treats the empty
string as falsy, so a 400 response whose body is `{detail: ""}` throws the
generic message, not the (empty) `detail`. -/
theorem clientChat_empty_detail :
    clientChat false 400 (some (some "")) ⟨"", [], none, none⟩ =
      Except.error "Chat failed: 400" ∧
    ("Chat failed: 400" : String) ≠ "" := by
  exact ⟨rfl, by decide⟩

/-- **C3 (amended).** On a non-2xx chat response, the client throws an
error whose message is the body's `detail` field when that field is
present, parseable, and non-empty; otherwise (parse failure, missing
`detail`, or empty `detail`) the message is the generic
`"Chat failed: <status>"`; and a non-2xx response never yields a
`ChatResponse`. -/
theorem clientChat_error_spec :
    ∀ (ok : Bool) (status : Nat) (parsed : Option (Option String))
      (body : ChatResponse),
      (ok = false → ∀ d, parsed = some (some d) → d ≠ "" →
        clientChat ok status parsed body = Except.error d) ∧
      (ok = false →
        chatErrorDetail parsed = none ∨ chatErrorDetail parsed = some "" →
        clientChat ok status parsed body =
          Except.error (chatFailedMsg status)) ∧
      (ok = false → ∀ r, clientChat ok status parsed body ≠ Except.ok r) := by
  intro ok status parsed body
  refine ⟨?_, ?_, ?_⟩
  · rintro rfl d rfl hd
    simp [clientChat, chatErrorDetail, hd]
  · rintro rfl (hd | hd) <;> simp [clientChat, hd]
  · rintro rfl r
    unfold clientChat
    cases chatErrorDetail parsed with
    | none => simp
    | some d =>
        by_cases hd : d = "" <;> simp [hd]

/-- Witness for the amended C3 at a concrete 422 response whose body
carries a non-empty `detail`: the thrown message is exactly that
`detail`. -/
theorem clientChat_error_spec_witness :
    clientChat false 422 (some (some "Invalid request")) ⟨"", [], none, none⟩
      = Except.error "Invalid request" :=
  (clientChat_error_spec false 422 (some (some "Invalid request"))
      ⟨"", [], none, none⟩).1 rfl "Invalid request" rfl (by decide)

/-- **C5.** A provider switch whose response lacks `status = "success"`
(or whose request throws, `resp = none`) leaves the active provider and
active model unchanged as a pair; and clicking a non-local provider that
lacks an API key opens the key prompt instead of issuing a switch
request. -/
theorem switchProvider_failure_atomic :
    ∀ (s : SettingsState) (providerId : String)
      (resp : Option SwitchResponse),
      ((∀ data, resp = some data → data.status ≠ "success") →
        (switchProvider s providerId resp).activeProvider =
            s.activeProvider ∧
        (switchProvider s providerId resp).activeModel = s.activeModel) ∧
      (∀ p : ProviderInfo, needsKey p = true →
        providerButtonClick s p resp =
          ({ s with showKeyInput := some p.id }, false)) := by
  intro s providerId resp
  constructor
  · intro h
    cases resp with
    | none => exact ⟨rfl, rfl⟩
    | some data =>
        have hd := h data rfl
        simp [switchProvider, hd]
  · intro p hp
    unfold providerButtonClick
    rw [if_pos hp]

/-- Witness for C5 at a concrete state: a thrown switch request
(`resp = none`) leaves `local_ollama`/`qwen2.5:3b` active, and clicking
the keyless `openai` provider opens the key prompt without issuing a
switch. -/
theorem switchProvider_failure_atomic_witness :
    (switchProvider ⟨"local_ollama", "qwen2.5:3b", false, "", none, none⟩
        "openai" none).activeProvider = "local_ollama" ∧
    (switchProvider ⟨"local_ollama", "qwen2.5:3b", false, "", none, none⟩
        "openai" none).activeModel = "qwen2.5:3b" ∧
    providerButtonClick ⟨"local_ollama", "qwen2.5:3b", false, "", none, none⟩
        ⟨"openai", "OpenAI", ["gpt-4o-mini"], "gpt-4o-mini", false, 0, 0⟩
        none =
      (⟨"local_ollama", "qwen2.5:3b", false, "", some "openai", none⟩, false) := by
  have h := switchProvider_failure_atomic
    ⟨"local_ollama", "qwen2.5:3b", false, "", none, none⟩ "openai" none
  have h1 := h.1 (fun data hd => by exact absurd hd (by simp))
  have h2 := h.2 ⟨"openai", "OpenAI", ["gpt-4o-mini"], "gpt-4o-mini", false, 0, 0⟩
    (by decide)
  exact ⟨h1.1, h1.2, h2⟩

/-- **C6 (counterexample).** The client does not tolerate a no-op 404 on
a repeat delete: with session `"A"` already confirmed for deletion, a
successful delete removes it; re-confirming and deleting again with a
non-ok (404) response sets the error `"Failed to delete session"`, which
the history panel displays — the failure is surfaced. -/
theorem handleDelete_repeat_404_error :
    (handleDelete
        (handleDelete
          (handleDelete ⟨[⟨"A", "t", "c", "u"⟩], false, none, some "A"⟩
            "A" true)
          "A" true)
        "A" false).error = some "Failed to delete session" ∧
    (⟨[⟨"A", "t", "c", "u"⟩], false, none, some "A"⟩ :
        ChatHistoryState).error = none := by
  exact ⟨rfl, rfl⟩

/-- **C6 (amended).** After a confirmed successful delete the session is
absent from the displayed list, and a repeat delete of the same id (its
arming click followed by a request answered 404) leaves the list unchanged
— the session stays absent, so the observable end state is the same — but
the 404 is surfaced as the error `"Failed to delete session"` rather than
tolerated silently. -/
theorem handleDelete_spec :
    ∀ (s : ChatHistoryState) (sid : String), s.deleteConfirm = some sid →
      (∀ x ∈ (handleDelete s sid true).sessions, x.session_id ≠ sid) ∧
      ∀ ok1 : Bool,
        (handleDelete (handleDelete (handleDelete s sid true) sid ok1)
            sid false).sessions = (handleDelete s sid true).sessions ∧
        (handleDelete (handleDelete (handleDelete s sid true) sid ok1)
            sid false).error = some "Failed to delete session" := by
  intro s sid hconfirm
  constructor
  · intro x hx
    simp [handleDelete, hconfirm, List.mem_filter] at hx
    exact hx.2
  · intro ok1
    have h1 : (handleDelete s sid true).deleteConfirm = none := by
      simp [handleDelete, hconfirm]
    constructor <;> simp [handleDelete, hconfirm, h1]

/-- Witness for the amended C6 at a concrete state: the repeat delete
answered 404 reports `"Failed to delete session"`. -/
theorem handleDelete_spec_witness :
    (handleDelete
        (handleDelete
          (handleDelete ⟨[⟨"B", "t", "c", "u"⟩], false, none, some "B"⟩
            "B" true)
          "B" false)
        "B" false).error = some "Failed to delete session" :=
  ((handleDelete_spec ⟨[⟨"B", "t", "c", "u"⟩], false, none, some "B"⟩
      "B" rfl).2 false).2

end VieLegalRag
